import Mathlib

/-!
Verification of the f3d window layer (`window_impl.cxx`) and the command-line
option layer (`F3DOptions.cxx`) against its natural-language specification.

The C++ code is shallowly embedded: the compile-time feature flags become a
`BuildConfig` record of booleans, the concrete VTK render-window subclasses
become an enumeration together with their (external, but fixed) VTK class
ancestry used by `IsA`, the renderer becomes an explicit state record whose
fields are the setters called by `UpdateDynamicOptions`, and C++ `double`
arithmetic is carried out exactly over `ℚ`.
-/

namespace F3D

/-- Requested window backend type (`window::Type` from the f3d public API). -/
inductive WinType where
  | NONE
  | EXTERNAL
  | EGL
  | OSMESA
  | GLX
  | WGL
  | COCOA
  | WASM
  | UNKNOWN
deriving DecidableEq

/-- The compile-time feature flags that guard the preprocessor branches of
`window_impl.cxx`. Each field is one `#ifdef` / `#if` condition. -/
structure BuildConfig where
  f3dModuleExternalRendering : Bool
  vtkOpenGLHasEGL : Bool
  vtkUseX : Bool
  win32 : Bool
  apple : Bool
  emscripten : Bool
  android : Bool
  vtkAtLeast_9_3_20240914 : Bool
deriving DecidableEq

/-- The concrete VTK render-window classes a `window_impl` constructor can
assign to `Internals->RenWin`. -/
inductive RenWinClass where
  | vtkF3DNoRenderWindow
  | vtkExternalOpenGLRenderWindow
  | vtkEGLRenderWindow
  | vtkOSOpenGLRenderWindow
  | vtkXOpenGLRenderWindow
  | vtkWin32OpenGLRenderWindow
  | vtkRenderWindow
deriving DecidableEq

/-- Ancestry of `vtkRenderWindow` in the VTK class hierarchy (external library
fact, used to give `IsA` its meaning). -/
def renderWindowAncestors : List String :=
  ["vtkRenderWindow", "vtkWindow", "vtkObject"]

/-- Ancestry of `vtkOpenGLRenderWindow` in the VTK class hierarchy. -/
def openGLAncestors : List String :=
  "vtkOpenGLRenderWindow" :: renderWindowAncestors

/-- Class ancestry of each concrete render-window class (VTK class hierarchy;
none of the concrete leaf classes derives from another one). -/
def ancestors : RenWinClass → List String
  | .vtkRenderWindow => renderWindowAncestors
  | .vtkF3DNoRenderWindow => "vtkF3DNoRenderWindow" :: renderWindowAncestors
  | .vtkExternalOpenGLRenderWindow =>
      "vtkExternalOpenGLRenderWindow" :: "vtkGenericOpenGLRenderWindow" :: openGLAncestors
  | .vtkEGLRenderWindow => "vtkEGLRenderWindow" :: openGLAncestors
  | .vtkOSOpenGLRenderWindow => "vtkOSOpenGLRenderWindow" :: openGLAncestors
  | .vtkXOpenGLRenderWindow => "vtkXOpenGLRenderWindow" :: openGLAncestors
  | .vtkWin32OpenGLRenderWindow => "vtkWin32OpenGLRenderWindow" :: openGLAncestors

/-- `vtkObject::IsA`: true when the object's class is `name` or derives from
`name`. -/
def isA (c : RenWinClass) (name : String) : Bool :=
  (ancestors c).contains name

/-- Render-window selection performed by `window_impl::window_impl`
(window_impl.cxx lines 176-236). The result is `Except`: `.error` models the
thrown `engine::no_window_exception`; `.ok none` models a constructor path
that assigns nothing to `RenWin`, leaving it null (the code then runs
`assert(RenWin != nullptr)`). Note the `WGL` branch: its `#ifdef _WIN32` has
no `#else`, so on a build without `_WIN32` nothing is thrown and nothing is
assigned. -/
def selectRenderWindow (cfg : BuildConfig) (t : Option WinType) :
    Except String (Option RenWinClass) :=
  if t = some WinType.NONE then
    .ok (some .vtkF3DNoRenderWindow)
  else if t = some WinType.EXTERNAL then
    if cfg.f3dModuleExternalRendering then .ok (some .vtkExternalOpenGLRenderWindow)
    else .error "Window type is external but F3D_MODULE_EXTERNAL_RENDERING is not enabled"
  else if t = some WinType.EGL then
    if cfg.vtkOpenGLHasEGL && cfg.vtkAtLeast_9_3_20240914 then .ok (some .vtkEGLRenderWindow)
    else .error "Window type is EGL but VTK EGL support is not enabled"
  else if t = some WinType.OSMESA then
    if cfg.vtkAtLeast_9_3_20240914 then .ok (some .vtkOSOpenGLRenderWindow)
    else .error "Window type is OSMesa but VTK OSMesa support is not enabled"
  else if t = some WinType.GLX then
    if cfg.vtkUseX && cfg.vtkAtLeast_9_3_20240914 then .ok (some .vtkXOpenGLRenderWindow)
    else .error "Window type is GLX but VTK GLX support is not enabled"
  else if t = some WinType.WGL then
    if cfg.win32 then .ok (some .vtkWin32OpenGLRenderWindow)
    else .ok none
  else if t = none then
    .ok (some .vtkRenderWindow)
  else
    .ok none

/-- True when the selection result is a thrown `no_window` error. -/
def isNoWindowError : Except String (Option RenWinClass) → Bool
  | .error _ => true
  | .ok _ => false

/-- `window_impl::getType` (window_impl.cxx lines 288-335): a chain of `IsA`
checks, each preprocessor-guarded check modelled as the guard flag conjoined
with the `IsA` test. -/
def getType (cfg : BuildConfig) (c : RenWinClass) : WinType :=
  if isA c "vtkOSOpenGLRenderWindow" then WinType.OSMESA
  else if cfg.vtkUseX && isA c "vtkXOpenGLRenderWindow" then WinType.GLX
  else if cfg.win32 && isA c "vtkWin32OpenGLRenderWindow" then WinType.WGL
  else if cfg.apple && isA c "vtkCocoaRenderWindow" then WinType.COCOA
  else if cfg.vtkOpenGLHasEGL && isA c "vtkEGLRenderWindow" then WinType.EGL
  else if cfg.emscripten && isA c "vtkWebAssemblyOpenGLRenderWindow" then WinType.WASM
  else if isA c "vtkF3DNoRenderWindow" then WinType.NONE
  else WinType.UNKNOWN

/-- The compile-time condition under which each requestable backend type is
supported, read off the same preprocessor branches as `selectRenderWindow`. -/
def backendCompiledIn (cfg : BuildConfig) : WinType → Bool
  | .NONE => true
  | .EXTERNAL => cfg.f3dModuleExternalRendering
  | .EGL => cfg.vtkOpenGLHasEGL && cfg.vtkAtLeast_9_3_20240914
  | .OSMESA => cfg.vtkAtLeast_9_3_20240914
  | .GLX => cfg.vtkUseX && cfg.vtkAtLeast_9_3_20240914
  | .WGL => cfg.win32
  | _ => false

/-- The backend type reported by `getType` after a construction that
succeeded with a non-null render window; `none` when construction threw or
left the window null. -/
def reportedType (cfg : BuildConfig) : Except String (Option RenWinClass) → Option WinType
  | .ok (some c) => some (getType cfg c)
  | _ => none

/-- A build with no optional backend support compiled in. -/
def noSupportConfig : BuildConfig :=
  ⟨false, false, false, false, false, false, false, false⟩

/-- Display or world point (`point3_t`), with C++ `double` arithmetic carried
out exactly over `ℚ`. -/
abbrev Point3 := ℚ × ℚ × ℚ

/-- Homogeneous 4-vector, as used for `worldPt[4]` in `getWorldFromDisplay`. -/
structure Vec4 where
  x : ℚ
  y : ℚ
  z : ℚ
  w : ℚ

/-- Componentwise scaling of a homogeneous 4-vector. -/
def Vec4.scale (c : ℚ) (v : Vec4) : Vec4 :=
  ⟨c * v.x, c * v.y, c * v.z, c * v.w⟩

/-- A 4x4 matrix of `double`s, row major. -/
structure Mat4 where
  a00 : ℚ
  a01 : ℚ
  a02 : ℚ
  a03 : ℚ
  a10 : ℚ
  a11 : ℚ
  a12 : ℚ
  a13 : ℚ
  a20 : ℚ
  a21 : ℚ
  a22 : ℚ
  a23 : ℚ
  a30 : ℚ
  a31 : ℚ
  a32 : ℚ
  a33 : ℚ

/-- Matrix-vector application. -/
def Mat4.apply (m : Mat4) (v : Vec4) : Vec4 :=
  ⟨m.a00 * v.x + m.a01 * v.y + m.a02 * v.z + m.a03 * v.w,
   m.a10 * v.x + m.a11 * v.y + m.a12 * v.z + m.a13 * v.w,
   m.a20 * v.x + m.a21 * v.y + m.a22 * v.z + m.a23 * v.w,
   m.a30 * v.x + m.a31 * v.y + m.a32 * v.z + m.a33 * v.w⟩

/-- The `1e-7` homogeneous-divide guard of `getWorldFromDisplay`. -/
def homogeneousThreshold : ℚ := 1 / 10000000

/-- `window_impl::getWorldFromDisplay` (window_impl.cxx lines 413-429).
`vtkRenderer::DisplayToWorld`, which is not part of this repository, is
modelled as application of the renderer's inverse composite projection
matrix `minv` to the homogeneous display point; the code under `src/` then
divides by the homogeneous coordinate only when it exceeds `1e-7`, returning
the origin otherwise. -/
def getWorldFromDisplay (minv : Mat4) (displayPoint : Point3) : Point3 :=
  let worldPt := minv.apply ⟨displayPoint.1, displayPoint.2.1, displayPoint.2.2, 1⟩
  if worldPt.w > homogeneousThreshold then
    (worldPt.x / worldPt.w, worldPt.y / worldPt.w, worldPt.z / worldPt.w)
  else
    (0, 0, 0)

/-- `window_impl::getDisplayFromWorld` (window_impl.cxx lines 432-439).
`vtkRenderer::WorldToDisplay`, which is not part of this repository, is
modelled as application of the renderer's composite projection matrix `m` to
`(x, y, z, 1)` followed by VTK's perspective divide (performed when the
resulting homogeneous coordinate is nonzero). -/
def getDisplayFromWorld (m : Mat4) (worldPoint : Point3) : Point3 :=
  let viewPt := m.apply ⟨worldPoint.1, worldPoint.2.1, worldPoint.2.2, 1⟩
  if viewPt.w ≠ 0 then
    (viewPt.x / viewPt.w, viewPt.y / viewPt.w, viewPt.z / viewPt.w)
  else
    (viewPt.x, viewPt.y, viewPt.z)

/-- The identity 4x4 matrix (a concrete projection for witnesses). -/
def idMat4 : Mat4 :=
  ⟨1, 0, 0, 0, 0, 1, 0, 0, 0, 0, 1, 0, 0, 0, 0, 1⟩

/-- The zero 4x4 matrix (a concrete degenerate projection for witnesses). -/
def zeroMat4 : Mat4 :=
  ⟨0, 0, 0, 0, 0, 0, 0, 0, 0, 0, 0, 0, 0, 0, 0, 0⟩

/-- RGB color triple. -/
abbrev Color3 := ℚ × ℚ × ℚ

/-- `options.interactor` fields read by `UpdateDynamicOptions`. -/
structure InteractorOptions where
  axis : Bool
  trackball : Bool
  invert_zoom : Bool

/-- `options.model.point_sprites`. -/
structure PointSpritesOptions where
  enable : Bool
  type : String
  size : Int

/-- `options.render.raytracing`. -/
structure RaytracingOptions where
  enable : Bool
  samples : Int
  denoise : Bool

/-- `options.render.effect`. -/
structure EffectOptions where
  ambient_occlusion : Bool
  anti_aliasing : Bool
  tone_mapping : Bool
  translucency_support : Bool
  final_shader : String

/-- `options.render.background`. -/
structure BackgroundOptions where
  color : Color3
  blur : Bool
  blur_coc : ℚ
  skybox : Bool

/-- `options.render.light`. -/
structure LightOptions where
  intensity : ℚ

/-- `options.render.hdri`. -/
structure HdriOptions where
  file : String
  ambient : Bool

/-- `options.render.grid`. -/
structure GridOptions where
  unit : ℚ
  subdivisions : Int
  absolute : Bool
  enable : Bool
  color : Color3

/-- `options.render`. -/
structure RenderOptions where
  line_width : ℚ
  point_size : ℚ
  show_edges : Bool
  raytracing : RaytracingOptions
  effect : EffectOptions
  backface_type : String
  background : BackgroundOptions
  light : LightOptions
  hdri : HdriOptions
  grid : GridOptions

/-- `options.ui`. -/
structure UiOptions where
  fps : Bool
  filename : Bool
  filename_info : String
  metadata : Bool
  cheatsheet : Bool
  dropzone : Bool
  dropzone_info : String
  scalar_bar : Bool
  font_file : String

/-- `options.scene.camera`. -/
structure CameraOptions where
  index : Option Int
  orthographic : Bool

/-- `options.scene`. -/
structure SceneOptions where
  camera : CameraOptions
  up_direction : String

/-- `options.model.color`. -/
structure ColorOptions where
  rgb : Color3
  opacity : ℚ
  texture : String

/-- `options.model.material`. -/
structure MaterialOptions where
  roughness : ℚ
  metallic : ℚ
  texture : String

/-- `options.model.emissive`. -/
structure EmissiveOptions where
  texture : String
  factor : Color3

/-- `options.model.normal`. -/
structure NormalOptions where
  texture : String
  scale : ℚ

/-- `options.model.matcap`. -/
structure MatcapOptions where
  texture : String

/-- `options.model.scivis`. -/
structure ScivisOptions where
  enable : Bool
  cells : Bool
  array_name : String
  component : Int
  range : List ℚ
  colormap : List ℚ

/-- `options.model.volume`. -/
structure VolumeOptions where
  enable : Bool
  inverse : Bool

/-- `options.model`. -/
structure ModelOptions where
  point_sprites : PointSpritesOptions
  color : ColorOptions
  material : MaterialOptions
  emissive : EmissiveOptions
  normal : NormalOptions
  matcap : MatcapOptions
  scivis : ScivisOptions
  volume : VolumeOptions

/-- The immutable options snapshot read by `UpdateDynamicOptions`. -/
structure Options where
  interactor : InteractorOptions
  model : ModelOptions
  render : RenderOptions
  ui : UiOptions
  scene : SceneOptions

/-- `vtkF3DRenderer::SplatType`. -/
inductive SplatType where
  | GAUSSIAN
  | SPHERE
deriving DecidableEq

/-- The renderer-visible state written by `UpdateDynamicOptions`: one field
per `vtkF3DRenderer` setter that it calls, plus `lightsUpdated` and
`actorsUpdated` for the two idempotent refresh calls (`UpdateLights` and
`UpdateActors` recompute derived VTK state from the current configuration). -/
structure RendererState where
  cachePath : String
  lightsUpdated : Bool
  axisVisible : Bool
  useTrackball : Bool
  invertZoom : Bool
  splatType : SplatType
  pointSpritesSize : Int
  lineWidth : ℚ
  pointSize : ℚ
  edgeVisible : Bool
  timerVisible : Bool
  filenameVisible : Bool
  filenameInfo : String
  metaDataVisible : Bool
  cheatSheetVisible : Bool
  dropZoneVisible : Bool
  dropZoneInfo : String
  useRaytracing : Bool
  raytracingSamples : Int
  useRaytracingDenoiser : Bool
  useSSAOPass : Bool
  useFXAAPass : Bool
  useToneMappingPass : Bool
  useDepthPeelingPass : Bool
  backfaceType : String
  finalShader : String
  background : Color3
  useBlurBackground : Bool
  blurCircleOfConfusionRadius : ℚ
  lightIntensity : ℚ
  hdriFile : String
  useImageBasedLighting : Bool
  hdriSkyboxVisible : Bool
  fontFile : String
  gridUnitSquare : ℚ
  gridSubdivisions : Int
  gridAbsolute : Bool
  gridVisible : Bool
  gridColor : Color3
  useOrthographicProjection : Bool
  surfaceColor : Color3
  opacity : ℚ
  textureBaseColor : String
  roughness : ℚ
  metallic : ℚ
  textureMaterial : String
  textureEmissive : String
  emissiveFactor : Color3
  textureNormal : String
  normalScale : ℚ
  textureMatCap : String
  enableColoring : Bool
  useCellColoring : Bool
  arrayNameForColoring : String
  componentForColoring : Int
  scalarBarRange : List ℚ
  colormap : List ℚ
  scalarBarVisible : Bool
  usePointSprites : Bool
  useVolume : Bool
  useInverseOpacityFunction : Bool
  actorsUpdated : Bool

/-- One renderer call performed by `UpdateDynamicOptions`, with its argument. -/
inductive RCall where
  | updateActors
  | setCachePath (p : String)
  | updateLights
  | showAxis (b : Bool)
  | setUseTrackball (b : Bool)
  | setInvertZoom (b : Bool)
  | setPointSpritesProperties (t : SplatType) (sz : Int)
  | setLineWidth (v : ℚ)
  | setPointSize (v : ℚ)
  | showEdge (b : Bool)
  | showTimer (b : Bool)
  | showFilename (b : Bool)
  | setFilenameInfo (v : String)
  | showMetaData (b : Bool)
  | showCheatSheet (b : Bool)
  | showDropZone (b : Bool)
  | setDropZoneInfo (v : String)
  | setUseRaytracing (b : Bool)
  | setRaytracingSamples (v : Int)
  | setUseRaytracingDenoiser (b : Bool)
  | setUseSSAOPass (b : Bool)
  | setUseFXAAPass (b : Bool)
  | setUseToneMappingPass (b : Bool)
  | setUseDepthPeelingPass (b : Bool)
  | setBackfaceType (v : String)
  | setFinalShader (v : String)
  | setBackground (c : Color3)
  | setUseBlurBackground (b : Bool)
  | setBlurCircleOfConfusionRadius (v : ℚ)
  | setLightIntensity (v : ℚ)
  | setHDRIFile (v : String)
  | setUseImageBasedLighting (b : Bool)
  | showHDRISkybox (b : Bool)
  | setFontFile (v : String)
  | setGridUnitSquare (v : ℚ)
  | setGridSubdivisions (v : Int)
  | setGridAbsolute (b : Bool)
  | showGrid (b : Bool)
  | setGridColor (c : Color3)
  | setUseOrthographicProjection (b : Bool)
  | setSurfaceColor (c : Color3)
  | setOpacity (v : ℚ)
  | setTextureBaseColor (v : String)
  | setRoughness (v : ℚ)
  | setMetallic (v : ℚ)
  | setTextureMaterial (v : String)
  | setTextureEmissive (v : String)
  | setEmissiveFactor (c : Color3)
  | setTextureNormal (v : String)
  | setNormalScale (v : ℚ)
  | setTextureMatCap (v : String)
  | setEnableColoring (b : Bool)
  | setUseCellColoring (b : Bool)
  | setArrayNameForColoring (v : String)
  | setComponentForColoring (v : Int)
  | setScalarBarRange (v : List ℚ)
  | setColormap (v : List ℚ)
  | showScalarBar (b : Bool)
  | setUsePointSprites (b : Bool)
  | setUseVolume (b : Bool)
  | setUseInverseOpacityFunction (b : Bool)

/-- The splat type computed at window_impl.cxx lines 475-477. -/
def splatTypeOf (opt : Options) : SplatType :=
  if opt.model.point_sprites.type = "gaussian" then SplatType.GAUSSIAN else SplatType.SPHERE

/-- The exact sequence of renderer calls performed by
`window_impl::UpdateDynamicOptions` (window_impl.cxx lines 450-550), in
source order. `w` is the class of `RenWin` and `cachePath` the window's
cache path (`GetCachePath` returns it after an idempotent `MakeDirectory`). -/
def updateDynamicOptionsTrace (w : RenWinClass) (cachePath : String) (opt : Options) :
    List RCall :=
  if isA w "vtkF3DNoRenderWindow" then
    [RCall.updateActors]
  else
    [RCall.setCachePath cachePath,
     RCall.updateLights,
     RCall.showAxis opt.interactor.axis,
     RCall.setUseTrackball opt.interactor.trackball,
     RCall.setInvertZoom opt.interactor.invert_zoom,
     RCall.setPointSpritesProperties (splatTypeOf opt) opt.model.point_sprites.size,
     RCall.setLineWidth opt.render.line_width,
     RCall.setPointSize opt.render.point_size,
     RCall.showEdge opt.render.show_edges,
     RCall.showTimer opt.ui.fps,
     RCall.showFilename opt.ui.filename,
     RCall.setFilenameInfo opt.ui.filename_info,
     RCall.showMetaData opt.ui.metadata,
     RCall.showCheatSheet opt.ui.cheatsheet,
     RCall.showDropZone opt.ui.dropzone,
     RCall.setDropZoneInfo opt.ui.dropzone_info,
     RCall.setUseRaytracing opt.render.raytracing.enable,
     RCall.setRaytracingSamples opt.render.raytracing.samples,
     RCall.setUseRaytracingDenoiser opt.render.raytracing.denoise,
     RCall.setUseSSAOPass opt.render.effect.ambient_occlusion,
     RCall.setUseFXAAPass opt.render.effect.anti_aliasing,
     RCall.setUseToneMappingPass opt.render.effect.tone_mapping,
     RCall.setUseDepthPeelingPass opt.render.effect.translucency_support,
     RCall.setBackfaceType opt.render.backface_type,
     RCall.setFinalShader opt.render.effect.final_shader,
     RCall.setBackground opt.render.background.color,
     RCall.setUseBlurBackground opt.render.background.blur,
     RCall.setBlurCircleOfConfusionRadius opt.render.background.blur_coc,
     RCall.setLightIntensity opt.render.light.intensity,
     RCall.setHDRIFile opt.render.hdri.file,
     RCall.setUseImageBasedLighting opt.render.hdri.ambient,
     RCall.showHDRISkybox opt.render.background.skybox,
     RCall.setFontFile opt.ui.font_file,
     RCall.setGridUnitSquare opt.render.grid.unit,
     RCall.setGridSubdivisions opt.render.grid.subdivisions,
     RCall.setGridAbsolute opt.render.grid.absolute,
     RCall.showGrid opt.render.grid.enable,
     RCall.setGridColor opt.render.grid.color] ++
    (if opt.scene.camera.index.isNone then
      [RCall.setUseOrthographicProjection opt.scene.camera.orthographic]
     else []) ++
    [RCall.setSurfaceColor opt.model.color.rgb,
     RCall.setOpacity opt.model.color.opacity,
     RCall.setTextureBaseColor opt.model.color.texture,
     RCall.setRoughness opt.model.material.roughness,
     RCall.setMetallic opt.model.material.metallic,
     RCall.setTextureMaterial opt.model.material.texture,
     RCall.setTextureEmissive opt.model.emissive.texture,
     RCall.setEmissiveFactor opt.model.emissive.factor,
     RCall.setTextureNormal opt.model.normal.texture,
     RCall.setNormalScale opt.model.normal.scale,
     RCall.setTextureMatCap opt.model.matcap.texture,
     RCall.setEnableColoring opt.model.scivis.enable,
     RCall.setUseCellColoring opt.model.scivis.cells,
     RCall.setArrayNameForColoring opt.model.scivis.array_name,
     RCall.setComponentForColoring opt.model.scivis.component,
     RCall.setScalarBarRange opt.model.scivis.range,
     RCall.setColormap opt.model.scivis.colormap,
     RCall.showScalarBar opt.ui.scalar_bar,
     RCall.setUsePointSprites opt.model.point_sprites.enable,
     RCall.setUseVolume opt.model.volume.enable,
     RCall.setUseInverseOpacityFunction opt.model.volume.inverse,
     RCall.updateActors]

/-- `window_impl::UpdateDynamicOptions` as a renderer-state transformer: the
same calls as `updateDynamicOptionsTrace`, with each setter interpreted as
assignment of its distinct state field (so the assignments below are listed
in source order; with distinct fields the order does not affect the result). -/
def updateDynamicOptions (w : RenWinClass) (cachePath : String) (opt : Options)
    (s : RendererState) : RendererState :=
  if isA w "vtkF3DNoRenderWindow" then
    { s with actorsUpdated := true }
  else
    let s1 := { s with
      cachePath := cachePath,
      lightsUpdated := true,
      axisVisible := opt.interactor.axis,
      useTrackball := opt.interactor.trackball,
      invertZoom := opt.interactor.invert_zoom,
      splatType := splatTypeOf opt,
      pointSpritesSize := opt.model.point_sprites.size,
      lineWidth := opt.render.line_width,
      pointSize := opt.render.point_size,
      edgeVisible := opt.render.show_edges,
      timerVisible := opt.ui.fps,
      filenameVisible := opt.ui.filename,
      filenameInfo := opt.ui.filename_info,
      metaDataVisible := opt.ui.metadata,
      cheatSheetVisible := opt.ui.cheatsheet,
      dropZoneVisible := opt.ui.dropzone,
      dropZoneInfo := opt.ui.dropzone_info,
      useRaytracing := opt.render.raytracing.enable,
      raytracingSamples := opt.render.raytracing.samples,
      useRaytracingDenoiser := opt.render.raytracing.denoise,
      useSSAOPass := opt.render.effect.ambient_occlusion,
      useFXAAPass := opt.render.effect.anti_aliasing,
      useToneMappingPass := opt.render.effect.tone_mapping,
      useDepthPeelingPass := opt.render.effect.translucency_support,
      backfaceType := opt.render.backface_type,
      finalShader := opt.render.effect.final_shader,
      background := opt.render.background.color,
      useBlurBackground := opt.render.background.blur,
      blurCircleOfConfusionRadius := opt.render.background.blur_coc,
      lightIntensity := opt.render.light.intensity,
      hdriFile := opt.render.hdri.file,
      useImageBasedLighting := opt.render.hdri.ambient,
      hdriSkyboxVisible := opt.render.background.skybox,
      fontFile := opt.ui.font_file,
      gridUnitSquare := opt.render.grid.unit,
      gridSubdivisions := opt.render.grid.subdivisions,
      gridAbsolute := opt.render.grid.absolute,
      gridVisible := opt.render.grid.enable,
      gridColor := opt.render.grid.color,
      surfaceColor := opt.model.color.rgb,
      opacity := opt.model.color.opacity,
      textureBaseColor := opt.model.color.texture,
      roughness := opt.model.material.roughness,
      metallic := opt.model.material.metallic,
      textureMaterial := opt.model.material.texture,
      textureEmissive := opt.model.emissive.texture,
      emissiveFactor := opt.model.emissive.factor,
      textureNormal := opt.model.normal.texture,
      normalScale := opt.model.normal.scale,
      textureMatCap := opt.model.matcap.texture,
      enableColoring := opt.model.scivis.enable,
      useCellColoring := opt.model.scivis.cells,
      arrayNameForColoring := opt.model.scivis.array_name,
      componentForColoring := opt.model.scivis.component,
      scalarBarRange := opt.model.scivis.range,
      colormap := opt.model.scivis.colormap,
      scalarBarVisible := opt.ui.scalar_bar,
      usePointSprites := opt.model.point_sprites.enable,
      useVolume := opt.model.volume.enable,
      useInverseOpacityFunction := opt.model.volume.inverse,
      actorsUpdated := true }
    if opt.scene.camera.index.isNone then
      { s1 with useOrthographicProjection := opt.scene.camera.orthographic }
    else s1

/-- State of the render window for the rendering entry points. -/
structure RenderWindowState where
  renderer : RendererState
  frameCount : Nat

/-- `window_impl::render` (window_impl.cxx lines 575-580): synchronize the
options, perform the blocking frame draw (`RenWin->Render()`), return `true`. -/
def render (w : RenWinClass) (cachePath : String) (opt : Options)
    (ws : RenderWindowState) : RenderWindowState × Bool :=
  let r := updateDynamicOptions w cachePath opt ws.renderer
  (⟨r, ws.frameCount + 1⟩, true)

/-- Capture buffer type of `vtkWindowToImageFilter` (RGB by default, RGBA
after `SetInputBufferTypeToRGBA`). -/
inductive BufType where
  | rgb
  | rgba
deriving DecidableEq

/-- `window_impl::renderToImage` (window_impl.cxx lines 583-609): synchronize
the options; when `noBackground` is requested, set the first renderer's
background to pure black and switch the capture buffer to RGBA; then draw and
read the pixels back. The result is the render-window state at readback time
together with the capture buffer type. -/
def renderToImage (w : RenWinClass) (cachePath : String) (opt : Options)
    (ws : RenderWindowState) (noBackground : Bool) : RenderWindowState × BufType :=
  let r := updateDynamicOptions w cachePath opt ws.renderer
  let r2 := if noBackground then { r with background := ((0 : ℚ), (0 : ℚ), (0 : ℚ)) } else r
  let buf := if noBackground then BufType.rgba else BufType.rgb
  (⟨r2, ws.frameCount + 1⟩, buf)

/-- The option fields of `F3DOptions` that `F3DOptions.cxx` binds or assigns. -/
structure F3DOptionsState where
  Verbose : Bool
  Axis : Bool
  Grid : Bool
  Normals : Bool
  HideBar : Bool
  Cells : Bool
  DepthPeeling : Bool
  FXAA : Bool
  SSAO : Bool
  BackgroundColor : List ℚ
  WindowSize : List Int
  Scalars : String
  Component : Int
  Range : List ℚ
  Input : String
deriving DecidableEq

/-- `F3DOptions::InitializeFromFile` (F3DOptions.cxx lines 74-99). The
`std::ifstream` open and the JsonCpp parse are external-library steps whose
outcomes are the booleans `openOk` and `parseOk`. The result is the returned
boolean, the (unchanged) options object, and the lines written to standard
error. After a successful parse the function does nothing with the parsed
values (the `TODO` in the source) and returns `true`. -/
def initializeFromFile (openOk parseOk : Bool) (fname : String) (o : F3DOptionsState) :
    Bool × F3DOptionsState × List String :=
  if !openOk then
    (false, o, ["Unable to open configuration file " ++ fname])
  else if !parseOk then
    (false, o, ["Unable to parse the configuration file " ++ fname])
  else
    (true, o, [])

/-- How a call of `F3DOptions::InitializeFromArgs` ends: either control
returns to the caller with a boolean, or the process terminates via
`exit(code)`. -/
inductive ArgsOutcome where
  | returns (success : Bool) (o : F3DOptionsState)
  | exits (code : Nat)
deriving DecidableEq

/-- Outcome of the external cxxopts parse (`options.parse(argc, argv)`) and
of the value lookups on its result: the option fields it assigned through the
bound references, the number of `--help` occurrences, and the value of the
positional `input` option (`none` when absent, in which case
`result["input"].as<std::string>()` throws a `cxxopts::OptionException`). -/
structure ParseSuccess where
  updated : F3DOptionsState
  helpCount : Nat
  inputValue : Option String
deriving DecidableEq

/-- `F3DOptions::InitializeFromArgs` (F3DOptions.cxx lines 10-71). `argc` is
the argument count and `parse` the outcome of the cxxopts parse (`.error`
models a thrown `cxxopts::OptionException`, which the function catches and
turns into `exit(EXIT_FAILURE)`). With no arguments (`argc == 1`) it prints
the help and calls `exit(EXIT_FAILURE)` before parsing; when `--help` was
parsed it prints the help and calls `exit(EXIT_SUCCESS)`; otherwise it stores
the positional input file and returns `true`. -/
def initializeFromArgs (argc : Nat) (parse : Except String ParseSuccess) : ArgsOutcome :=
  if argc = 1 then
    .exits 1
  else
    match parse with
    | .error _ => .exits 1
    | .ok r =>
      if r.helpCount > 0 then
        .exits 0
      else
        match r.inputValue with
        | none => .exits 1
        | some v => .returns true { r.updated with Input := v }

/-- A concrete options object for witnesses (field values as after the
cxxopts defaults `0.2,0.2,0.2` and `1000,600`). -/
def sampleF3DOptions : F3DOptionsState :=
  { Verbose := false, Axis := false, Grid := false, Normals := false, HideBar := false,
    Cells := false, DepthPeeling := false, FXAA := false, SSAO := false,
    BackgroundColor := [1 / 5, 1 / 5, 1 / 5], WindowSize := [1000, 600],
    Scalars := "", Component := -1, Range := [], Input := "" }

/-- A typical Linux desktop build: X11, EGL, external rendering and a recent
VTK, no Windows/macOS/wasm. -/
def linuxConfig : BuildConfig :=
  ⟨true, true, true, false, false, false, false, true⟩

end F3D

namespace F3D

lemma getType_noWindow (cfg : BuildConfig) :
    getType cfg .vtkF3DNoRenderWindow = WinType.NONE := by
  rcases cfg with ⟨e, eg, x, w, a, em, an, v⟩
  cases x <;> cases w <;> cases a <;> cases eg <;> cases em <;> rfl

lemma getType_osmesa (cfg : BuildConfig) :
    getType cfg .vtkOSOpenGLRenderWindow = WinType.OSMESA := rfl

lemma getType_glx (cfg : BuildConfig) (h : cfg.vtkUseX = true) :
    getType cfg .vtkXOpenGLRenderWindow = WinType.GLX := by
  rcases cfg with ⟨e, eg, x, w, a, em, an, v⟩
  cases x
  · exact Bool.noConfusion h
  · rfl

lemma getType_wgl (cfg : BuildConfig) (h : cfg.win32 = true) :
    getType cfg .vtkWin32OpenGLRenderWindow = WinType.WGL := by
  rcases cfg with ⟨e, eg, x, w, a, em, an, v⟩
  cases w
  · exact Bool.noConfusion h
  · cases x <;> rfl

lemma getType_egl (cfg : BuildConfig) (h : cfg.vtkOpenGLHasEGL = true) :
    getType cfg .vtkEGLRenderWindow = WinType.EGL := by
  rcases cfg with ⟨e, eg, x, w, a, em, an, v⟩
  cases eg
  · exact Bool.noConfusion h
  · cases x <;> cases w <;> cases a <;> rfl

/-- C1: requesting a backend whose compile-time support is absent. The four
backends EXTERNAL, EGL, OSMesa and GLX do throw the `no_window` error, but
requesting `WGL` on a build without `_WIN32` throws nothing and assigns no
render window at all (the `#ifdef _WIN32` branch has no `#else`), leaving the
null window that the subsequent `assert(RenWin != nullptr)` rejects. -/
theorem unsupported_backend_dispatch :
    isNoWindowError (selectRenderWindow noSupportConfig (some WinType.EXTERNAL)) = true ∧
    isNoWindowError (selectRenderWindow noSupportConfig (some WinType.EGL)) = true ∧
    isNoWindowError (selectRenderWindow noSupportConfig (some WinType.OSMESA)) = true ∧
    isNoWindowError (selectRenderWindow noSupportConfig (some WinType.GLX)) = true ∧
    selectRenderWindow noSupportConfig (some WinType.WGL) = .ok none :=
  ⟨rfl, rfl, rfl, rfl, rfl⟩

/-- C2 counterexample: on a build with external rendering compiled in,
constructing a window of type EXTERNAL succeeds, yet `getType` reports
`UNKNOWN` (no `IsA` check for `vtkExternalOpenGLRenderWindow` exists), not
`EXTERNAL`. -/
theorem external_backend_reports_unknown :
    backendCompiledIn linuxConfig WinType.EXTERNAL = true ∧
    selectRenderWindow linuxConfig (some WinType.EXTERNAL) =
      .ok (some RenWinClass.vtkExternalOpenGLRenderWindow) ∧
    getType linuxConfig RenWinClass.vtkExternalOpenGLRenderWindow = WinType.UNKNOWN ∧
    WinType.UNKNOWN ≠ WinType.EXTERNAL :=
  ⟨rfl, rfl, rfl, by decide⟩

/-- C2 (amended): for every compiled-in backend type other than EXTERNAL,
construction yields a render window whose reported type matches the request. -/
theorem backend_reported_type (cfg : BuildConfig) (t : WinType)
    (hc : backendCompiledIn cfg t = true) (hext : t ≠ WinType.EXTERNAL) :
    reportedType cfg (selectRenderWindow cfg (some t)) = some t := by
  cases t with
  | NONE =>
      have hsel : selectRenderWindow cfg (some WinType.NONE) =
          Except.ok (some RenWinClass.vtkF3DNoRenderWindow) := rfl
      rw [hsel]
      simp only [reportedType]
      rw [getType_noWindow cfg]
  | EXTERNAL => exact absurd rfl hext
  | EGL =>
      simp only [backendCompiledIn, Bool.and_eq_true] at hc
      obtain ⟨h1, h2⟩ := hc
      have hsel : selectRenderWindow cfg (some WinType.EGL) =
          Except.ok (some RenWinClass.vtkEGLRenderWindow) := by
        simp only [selectRenderWindow, h1, h2]
        rfl
      rw [hsel]
      simp only [reportedType]
      rw [getType_egl cfg h1]
  | OSMESA =>
      simp only [backendCompiledIn] at hc
      have hsel : selectRenderWindow cfg (some WinType.OSMESA) =
          Except.ok (some RenWinClass.vtkOSOpenGLRenderWindow) := by
        simp only [selectRenderWindow, hc]
        rfl
      rw [hsel]
      simp only [reportedType]
      rw [getType_osmesa cfg]
  | GLX =>
      simp only [backendCompiledIn, Bool.and_eq_true] at hc
      obtain ⟨h1, h2⟩ := hc
      have hsel : selectRenderWindow cfg (some WinType.GLX) =
          Except.ok (some RenWinClass.vtkXOpenGLRenderWindow) := by
        simp only [selectRenderWindow, h1, h2]
        rfl
      rw [hsel]
      simp only [reportedType]
      rw [getType_glx cfg h1]
  | WGL =>
      simp only [backendCompiledIn] at hc
      have hsel : selectRenderWindow cfg (some WinType.WGL) =
          Except.ok (some RenWinClass.vtkWin32OpenGLRenderWindow) := by
        simp only [selectRenderWindow, hc]
        rfl
      rw [hsel]
      simp only [reportedType]
      rw [getType_wgl cfg hc]
  | COCOA => simp [backendCompiledIn] at hc
  | WASM => simp [backendCompiledIn] at hc
  | UNKNOWN => simp [backendCompiledIn] at hc

/-- Witness for `backend_reported_type`: on the Linux build, requesting GLX
yields a window reported as GLX. -/
theorem backend_reported_type_witness :
    reportedType linuxConfig (selectRenderWindow linuxConfig (some WinType.GLX)) =
      some WinType.GLX :=
  backend_reported_type linuxConfig WinType.GLX rfl (by decide)

lemma Mat4.apply_scale (m : Mat4) (c : ℚ) (v : Vec4) :
    m.apply (Vec4.scale c v) = Vec4.scale c (m.apply v) := by
  simp only [Mat4.apply, Vec4.scale, Vec4.mk.injEq]
  refine ⟨by ring, by ring, by ring, by ring⟩

lemma idMat4_apply (v : Vec4) : idMat4.apply v = v := by
  rcases v with ⟨a, b, c, d⟩
  simp only [idMat4, Mat4.apply, Vec4.mk.injEq]
  refine ⟨by ring, by ring, by ring, by ring⟩

/-- C3: round-trip law. If the unprojection of a display point has its
homogeneous coordinate strictly above the `1e-7` threshold, then
`getDisplayFromWorld (getWorldFromDisplay p) = p`, for any projection matrix
`m` with inverse `minv` (exact arithmetic over `ℚ`). -/
theorem display_world_display_roundtrip (m minv : Mat4)
    (hinv : ∀ v : Vec4, m.apply (minv.apply v) = v) (p : Point3)
    (h : homogeneousThreshold < (minv.apply ⟨p.1, p.2.1, p.2.2, 1⟩).w) :
    getDisplayFromWorld m (getWorldFromDisplay minv p) = p := by
  obtain ⟨p1, p2, p3⟩ := p
  have hwpos : 0 < (minv.apply ⟨p1, p2, p3, 1⟩).w :=
    lt_trans (by norm_num [homogeneousThreshold]) h
  have hwne : (minv.apply ⟨p1, p2, p3, 1⟩).w ≠ 0 := ne_of_gt hwpos
  have hworld : getWorldFromDisplay minv (p1, p2, p3) =
      ((minv.apply ⟨p1, p2, p3, 1⟩).x / (minv.apply ⟨p1, p2, p3, 1⟩).w,
       (minv.apply ⟨p1, p2, p3, 1⟩).y / (minv.apply ⟨p1, p2, p3, 1⟩).w,
       (minv.apply ⟨p1, p2, p3, 1⟩).z / (minv.apply ⟨p1, p2, p3, 1⟩).w) := by
    simp only [getWorldFromDisplay]
    rw [if_pos h]
  rw [hworld]
  have hlift : (⟨(minv.apply ⟨p1, p2, p3, 1⟩).x / (minv.apply ⟨p1, p2, p3, 1⟩).w,
      (minv.apply ⟨p1, p2, p3, 1⟩).y / (minv.apply ⟨p1, p2, p3, 1⟩).w,
      (minv.apply ⟨p1, p2, p3, 1⟩).z / (minv.apply ⟨p1, p2, p3, 1⟩).w, 1⟩ : Vec4) =
      Vec4.scale ((minv.apply ⟨p1, p2, p3, 1⟩).w)⁻¹ (minv.apply ⟨p1, p2, p3, 1⟩) := by
    simp only [Vec4.scale, Vec4.mk.injEq]
    refine ⟨?_, ?_, ?_, ?_⟩ <;> field_simp
  simp only [getDisplayFromWorld]
  rw [hlift, Mat4.apply_scale, hinv]
  have hinvne : ((minv.apply ⟨p1, p2, p3, 1⟩).w)⁻¹ ≠ 0 := inv_ne_zero hwne
  have hsw : (Vec4.scale ((minv.apply ⟨p1, p2, p3, 1⟩).w)⁻¹ ⟨p1, p2, p3, 1⟩).w ≠ 0 := by
    simp only [Vec4.scale]
    simpa using hinvne
  rw [if_pos hsw]
  simp only [Vec4.scale]
  refine Prod.ext ?_ (Prod.ext ?_ ?_) <;> field_simp

/-- Witness for `display_world_display_roundtrip`: the identity projection and
the display point (0, 0, 0), whose homogeneous coordinate is 1. -/
theorem display_world_display_roundtrip_witness :
    getDisplayFromWorld idMat4
      (getWorldFromDisplay idMat4 ((0 : ℚ), (0 : ℚ), (0 : ℚ))) = ((0 : ℚ), (0 : ℚ), (0 : ℚ)) :=
  display_world_display_roundtrip idMat4 idMat4
    (fun v => by rw [idMat4_apply, idMat4_apply]) ((0 : ℚ), (0 : ℚ), (0 : ℚ))
    (by rw [idMat4_apply]; norm_num [homogeneousThreshold])

/-- C4: the homogeneous-divide guard. Whenever the unprojected homogeneous
coordinate is below `1e-7`, `getWorldFromDisplay` takes the guarded branch and
returns the origin (0, 0, 0); the division is never reached. -/
theorem worldFromDisplay_degenerate_returns_origin (minv : Mat4) (p : Point3)
    (h : (minv.apply ⟨p.1, p.2.1, p.2.2, 1⟩).w < homogeneousThreshold) :
    getWorldFromDisplay minv p = (0, 0, 0) := by
  simp only [getWorldFromDisplay]
  rw [if_neg (not_lt.mpr (le_of_lt h))]

/-- Witness for `worldFromDisplay_degenerate_returns_origin`: the zero matrix
unprojects every display point with homogeneous coordinate 0. -/
theorem worldFromDisplay_degenerate_returns_origin_witness :
    getWorldFromDisplay zeroMat4 ((0 : ℚ), (0 : ℚ), (0 : ℚ)) = (0, 0, 0) :=
  worldFromDisplay_degenerate_returns_origin zeroMat4 ((0 : ℚ), (0 : ℚ), (0 : ℚ))
    (by norm_num [zeroMat4, Mat4.apply, homogeneousThreshold])

/-- C5: with the "none" render surface (`vtkF3DNoRenderWindow`),
`UpdateDynamicOptions` performs exactly one renderer call, `UpdateActors`,
and leaves every renderer configuration field unchanged. -/
theorem updateDynamicOptions_none_window (cp : String) (opt : Options) (s : RendererState) :
    updateDynamicOptionsTrace .vtkF3DNoRenderWindow cp opt = [RCall.updateActors] ∧
    updateDynamicOptions .vtkF3DNoRenderWindow cp opt s = { s with actorsUpdated := true } :=
  ⟨rfl, rfl⟩

/-- C9: `UpdateDynamicOptions` is idempotent: for a fixed options snapshot,
running it twice leaves the renderer in the same state as running it once. -/
theorem updateDynamicOptions_idem (w : RenWinClass) (cp : String) (opt : Options)
    (s : RendererState) :
    updateDynamicOptions w cp opt (updateDynamicOptions w cp opt s) =
      updateDynamicOptions w cp opt s := by
  by_cases hw : isA w "vtkF3DNoRenderWindow" = true
  · simp [updateDynamicOptions, hw]
  · rcases hcam : opt.scene.camera.index with _ | i <;>
      simp [updateDynamicOptions, hw, hcam]

/-- C6: `render()` synchronizes the options, draws one frame on the
synchronized renderer, and always returns `true`. -/
theorem render_returns_true (w : RenWinClass) (cp : String) (opt : Options)
    (ws : RenderWindowState) :
    (render w cp opt ws).2 = true ∧
    (render w cp opt ws).1.renderer = updateDynamicOptions w cp opt ws.renderer ∧
    (render w cp opt ws).1.frameCount = ws.frameCount + 1 :=
  ⟨rfl, rfl, rfl⟩

/-- C7: `renderToImage(noBackground = true)` reaches the pixel readback with
the renderer background forced to pure black and the capture buffer set to
RGBA. -/
theorem renderToImage_noBackground_black_rgba (w : RenWinClass) (cp : String)
    (opt : Options) (ws : RenderWindowState) :
    (renderToImage w cp opt ws true).1.renderer.background = ((0 : ℚ), (0 : ℚ), (0 : ℚ)) ∧
    (renderToImage w cp opt ws true).2 = BufType.rgba :=
  ⟨rfl, rfl⟩

/-- C8: `InitializeFromFile` returns `false` exactly when the file cannot be
opened or cannot be parsed as JSON (and then has written to standard error),
returns `true` otherwise, and never modifies any option field. -/
theorem initializeFromFile_spec (openOk parseOk : Bool) (fname : String)
    (o : F3DOptionsState) :
    (initializeFromFile openOk parseOk fname o).1 = (openOk && parseOk) ∧
    (initializeFromFile openOk parseOk fname o).2.1 = o ∧
    ((initializeFromFile openOk parseOk fname o).1 = false →
      (initializeFromFile openOk parseOk fname o).2.2 ≠ []) := by
  cases openOk <;> cases parseOk <;> simp [initializeFromFile]

/-- C10: whenever `InitializeFromArgs` returns at all (rather than calling
`exit`), the returned boolean is `true`. -/
theorem initializeFromArgs_never_false (argc : Nat) (parse : Except String ParseSuccess)
    (b : Bool) (o : F3DOptionsState)
    (h : initializeFromArgs argc parse = .returns b o) : b = true := by
  unfold initializeFromArgs at h
  split at h
  · exact ArgsOutcome.noConfusion h
  · split at h
    · exact ArgsOutcome.noConfusion h
    · split at h
      · exact ArgsOutcome.noConfusion h
      · split at h
        · exact ArgsOutcome.noConfusion h
        · injection h with hb ho
          exact hb.symm

/-- Witness for `initializeFromArgs_never_false`: a run with two arguments, a
successful parse, no `--help` and a present input file returns, and the
returned boolean is `true`. -/
theorem initializeFromArgs_never_false_witness :
    initializeFromArgs 2 (Except.ok ⟨sampleF3DOptions, 0, some "input.vtu"⟩) =
      .returns true { sampleF3DOptions with Input := "input.vtu" } ∧ (true : Bool) = true :=
  ⟨rfl, initializeFromArgs_never_false 2 (Except.ok ⟨sampleF3DOptions, 0, some "input.vtu"⟩)
    true { sampleF3DOptions with Input := "input.vtu" } rfl⟩

end F3D
